import Mathlib

/-!
# Verification of the Imgfans JavaScript client (`src/index.ts`)

A shallow embedding of the library in Lean 4.  Strings are Lean `String`s,
byte buffers are `List Nat` (each element a byte value `< 256`), and the
two external effects that `preprocessInput` performs — the filesystem
existence check (`existsSync`) and the HTTP fetch (`axios.get`) — are
supplied as oracles in an environment record, so that every theorem is
quantified over the behaviour of the outside world.  Thrown JavaScript
values are modelled by an explicit `Thrown` inductive and fallible
operations return `Except Thrown`.
-/

set_option maxHeartbeats 1000000

/-- Model of JavaScript `String.prototype.startsWith` with a literal
argument, as used by `preprocessInput` (`input.startsWith("http://")`,
`"https://"`, `"data:image/"`). -/
def jsStartsWith (s p : String) : Bool :=
  p.data.isPrefixOf s.data

/-- JavaScript `a || b` where `a` is a possibly-absent string: `undefined`
and the empty string are falsy and select the fallback `b`. -/
def jsOrStr (a : Option String) (b : String) : String :=
  match a with
  | some s => if s = "" then b else s
  | none => b

/-! ## Node `Buffer` base64 codec

`Buffer.from(payload, "base64")` and `Buffer.prototype.toString("base64")`,
modelled on byte lists.  Node's decoder maps the 64 alphabet characters
(plus the URL-safe variants `-` and `_`) to sextets, silently skipping
every other character including the `=` padding, and converts each group
of four sextets to three bytes, a trailing group of three sextets to two
bytes, a trailing group of two sextets to one byte, and a lone trailing
sextet to nothing. -/

/-- The standard base64 alphabet in index order. -/
def b64Alphabet : List Char :=
  "ABCDEFGHIJKLMNOPQRSTUVWXYZabcdefghijklmnopqrstuvwxyz0123456789+/".data

/-- Sextet value of a character, `none` for characters the decoder skips. -/
def b64IndexOfChar (c : Char) : Option Nat :=
  let i := b64Alphabet.indexOf c
  if i < 64 then some i
  else if c = '-' then some 62
  else if c = '_' then some 63
  else none

/-- Reassemble bytes from a list of sextets, Node style. -/
def sextetsToBytes : List Nat → List Nat
  | a :: b :: c :: d :: rest =>
      (a * 4 + b / 16) :: ((b % 16) * 16 + c / 4) :: ((c % 4) * 64 + d) ::
        sextetsToBytes rest
  | [a, b] => [a * 4 + b / 16]
  | [a, b, c] => [a * 4 + b / 16, (b % 16) * 16 + c / 4]
  | _ => []

/-- Decode: `Buffer.from(s, "base64")` as a byte list. -/
def b64decode (s : String) : List Nat :=
  sextetsToBytes (s.data.filterMap b64IndexOfChar)

/-- Alphabet character of a sextet. -/
def b64Chr (i : Nat) : Char :=
  b64Alphabet.getD i 'A'

/-- Encode a byte list to base64 characters with `=` padding. -/
def bytesToB64 : List Nat → List Char
  | b1 :: b2 :: b3 :: rest =>
      b64Chr (b1 / 4) :: b64Chr ((b1 % 4) * 16 + b2 / 16) ::
        b64Chr ((b2 % 16) * 4 + b3 / 64) :: b64Chr (b3 % 64) :: bytesToB64 rest
  | [b1] => [b64Chr (b1 / 4), b64Chr ((b1 % 4) * 16), '=', '=']
  | [b1, b2] => [b64Chr (b1 / 4), b64Chr ((b1 % 4) * 16 + b2 / 16), b64Chr ((b2 % 16) * 4), '=']
  | [] => []

/-- Encode: `Buffer.prototype.toString("base64")`. -/
def b64encode (bs : List Nat) : String :=
  String.mk (bytesToB64 bs)

/-! ## The data-URI regular expression

`preprocessInput` tests `input.match(/^data:(.+);base64,(.+)$/)`.  In
JavaScript `.` matches every character except the four line terminators,
`(.+)` is greedy (group 1 takes the longest prefix that still lets the
rest of the pattern match, so group 2 starts after the rightmost
`";base64,"` that leaves it non-empty), and both groups must be
non-empty. -/

/-- The four JavaScript line terminators, which `.` does not match. -/
def isLineTerminator (c : Char) : Bool :=
  c == '\n' || c == '\r' || c == '\u2028' || c == '\u2029'

/-- The literal separator of the data-URI pattern. -/
def b64Sep : List Char := ";base64,".data

/-- Split around the rightmost occurrence of `";base64,"` that is followed
by at least one character; returns (part before, part after). -/
def splitLastSep : List Char → Option (List Char × List Char)
  | [] => none
  | c :: rest =>
    match splitLastSep rest with
    | some (m, p) => some (c :: m, p)
    | none =>
      if b64Sep.isPrefixOf (c :: rest) ∧ (c :: rest).drop 8 ≠ [] then
        some ([], (c :: rest).drop 8)
      else none

/-- Result of `input.match(/^data:(.+);base64,(.+)$/)`: `some (mime,
payload)` with the two captured groups, or `none` when the regular
expression does not match. -/
def dataUriMatch (s : String) : Option (String × String) :=
  if jsStartsWith s "data:" then
    let rest := s.data.drop 5
    if rest.any isLineTerminator then none
    else
      match splitLastSep rest with
      | some (m, p) => if m = [] then none else some (String.mk m, String.mk p)
      | none => none
  else none

/-! ## Platform path and URL helpers -/

/-- Node `path.basename` (POSIX): ignore trailing slashes, then keep the
part after the last remaining slash; a path of only slashes gives `"/"`,
the empty path gives `""`. -/
def basename (p : String) : String :=
  if p.data = [] then ""
  else
    let t := (p.data.reverse.dropWhile (· == '/')).reverse
    if t = [] then "/"
    else String.mk (t.reverse.takeWhile (· != '/')).reverse

/-- Path component of an `http(s)` URL: skip the authority (up to the
first `/`, `?` or `#` after the scheme), then keep from the slash up to
the query or fragment; an absent path reads as `/`.  This models the
WHATWG `URL.pathname` getter used in the URL branch of `preprocessInput`
for well-formed URLs, without percent-encoding or dot-segment
normalization. -/
def urlPathGo (cs : List Char) : String :=
  let tail := cs.dropWhile (fun c => !(c == '/' || c == '?' || c == '#'))
  match tail with
  | [] => "/"
  | c :: _ =>
    if c == '/' then String.mk (tail.takeWhile (fun c => !(c == '?' || c == '#')))
    else "/"

/-- Model of `new URL(s).pathname` for the URL-branch strings of
`preprocessInput`. -/
def urlPathname (s : String) : String :=
  if jsStartsWith s "http://" then urlPathGo (s.data.drop 7)
  else if jsStartsWith s "https://" then urlPathGo (s.data.drop 8)
  else ""

/-! ## Thrown values and the `ImgfansError` wrapper -/

/-- The JSON payload of an error response (`error.response.data`): an
opaque body together with the optional `message` field that the fallback
branch of `getReadableErrorMessage` reads. -/
structure ServerPayload where
  message : Option String
  raw : String
deriving DecidableEq, Repr

/-- Shape of `error.response` of an axios error: HTTP status and payload. -/
structure AxiosResp where
  status : Nat
  data : ServerPayload
deriving DecidableEq, Repr

/-- An axios transport error: optional response (absent for network-level
failures), optional `code` (for example `"ECONNREFUSED"`), and the always
present `message` string. -/
structure AxiosError where
  response : Option AxiosResp
  code : Option String
  message : String
deriving DecidableEq, Repr

/-- A thrown JavaScript value: an axios error, an `ImgfansError`
(message, optional `statusCode`, optional `response` payload, optional
`cause`), or a native `TypeError`. -/
inductive Thrown where
  | axiosError (e : AxiosError)
  | imgfansError (message : String) (statusCode : Option Nat)
      (response : Option ServerPayload) (cause : Option Thrown)
  | typeError (message : String)
deriving Repr

/-- Read `error.message` of a thrown value. -/
def Thrown.errMessage : Thrown → String
  | .axiosError e => e.message
  | .imgfansError m _ _ _ => m
  | .typeError m => m

/-- Whether a thrown value is the library's unified `ImgfansError`. -/
def Thrown.isImgfansError : Thrown → Bool
  | .imgfansError _ _ _ _ => true
  | _ => false

/-- Read `error.response?.status` of an axios error. -/
def respStatus (e : AxiosError) : Option Nat :=
  e.response.map AxiosResp.status

/-- Model of `ImgfansError.getReadableErrorMessage`: the deterministic
status-driven translation of a transport failure to a human-readable
message. -/
def getReadableErrorMessage (e : AxiosError) : String :=
  if respStatus e = some 413 then
    "The image file is too large. Please try a smaller file."
  else if respStatus e = some 415 then
    "The file type is not supported. Please upload a valid image file."
  else if respStatus e = some 401 then
    "Invalid or missing API token. Please check your credentials."
  else if e.code = some "ECONNREFUSED" then
    "Unable to connect to Imgfans server. Please check your internet connection."
  else
    jsOrStr (e.response.bind fun r => r.data.message)
      (jsOrStr (some e.message) "Upload failed for unknown reason")

/-- Model of `ImgfansError.fromError`: wrap any thrown value into an
`ImgfansError`.  An axios error keeps its status code and payload and the
readable message; any other thrown value keeps only its message (with a
generic default when that message is empty) and the original value as
`cause`. -/
def ImgfansError.fromError : Thrown → Thrown
  | .axiosError e =>
      .imgfansError (getReadableErrorMessage e) (respStatus e)
        (e.response.map AxiosResp.data) (some (.axiosError e))
  | .imgfansError m sc r c =>
      .imgfansError (jsOrStr (some m) "An unexpected error occurred") none none
        (some (.imgfansError m sc r c))
  | .typeError m =>
      .imgfansError (jsOrStr (some m) "An unexpected error occurred") none none
        (some (.typeError m))

/-! ## Input normalization (`preprocessInput`) -/

/-- The upload input union: a string (URL, data URI, or file path), a
`Buffer`, a `Blob`, a `Readable` stream (the latter three carried
abstractly), or a value of an unrecognized type. -/
inductive UploadInput where
  | str (s : String)
  | buffer (bytes : List Nat)
  | blob (bytes : List Nat)
  | readable (id : Nat)
  | unsupported
deriving DecidableEq, Repr

/-- The normalized byte source handed to the transport layer. -/
inductive ProcessedFile where
  | buffer (bytes : List Nat)
  | stream (path : String)
  | blob (bytes : List Nat)
  | readable (id : Nat)
deriving DecidableEq, Repr

/-- The two external effects of `preprocessInput`, as oracles:
`existsSync` and the body of `axios.get` (either fetched bytes or an
axios error). -/
structure PreEnv where
  fsExists : String → Bool
  fetch : String → Except AxiosError (List Nat)

/-- The `InvalidInput` message of the string fall-through branch. -/
def invalidInputMsg : String :=
  "Invalid input: must be a valid URL, file path, or base64 string"

/-- The two trailing string checks of `preprocessInput`: `existsSync`
path branch, else throw `InvalidInput`. -/
def preprocessPathFallback (env : PreEnv) (s : String)
    (customFilename : Option String) : Except Thrown (ProcessedFile × String) :=
  if env.fsExists s then
    .ok (.stream s, customFilename.getD (basename s))
  else
    .error (.imgfansError invalidInputMsg none none none)

/-- The body of the `try` block of `preprocessInput`: the ordered
classification chain over the input. -/
def preprocessCore (env : PreEnv) (input : UploadInput)
    (customFilename : Option String) : Except Thrown (ProcessedFile × String) :=
  match input with
  | .str s =>
    if jsStartsWith s "http://" || jsStartsWith s "https://" then
      match env.fetch s with
      | .ok bytes =>
          .ok (.buffer bytes, customFilename.getD (basename (urlPathname s)))
      | .error e => .error (.axiosError e)
    else if jsStartsWith s "data:image/" then
      match dataUriMatch s with
      | some mp => .ok (.buffer (b64decode mp.2), customFilename.getD "image.png")
      | none => preprocessPathFallback env s customFilename
    else preprocessPathFallback env s customFilename
  | .buffer bs => .ok (.buffer bs, customFilename.getD "image.png")
  | .blob bs => .ok (.blob bs, customFilename.getD "image.png")
  | .readable i => .ok (.readable i, customFilename.getD "image.png")
  | .unsupported => .error (.imgfansError "Unsupported input type" none none none)

/-- Model of `preprocessInput`: the classification chain with its `catch` block,
which rewraps any thrown value through `ImgfansError.fromError`. -/
def preprocessInput (env : PreEnv) (input : UploadInput)
    (customFilename : Option String) : Except Thrown (ProcessedFile × String) :=
  match preprocessCore env input customFilename with
  | .ok v => .ok v
  | .error e => .error (ImgfansError.fromError e)

/-! ## Response shape and accessors -/

/-- One entry of the `references` object. -/
structure RefEntry where
  label : String
  code : String
deriving DecidableEq, Repr

/-- The `references` object; each of the five kinds is optional to model
a wire response that omits it. -/
structure RefSet where
  direct_link : Option RefEntry
  download_link : Option RefEntry
  bbcode : Option RefEntry
  html : Option RefEntry
  markdown : Option RefEntry
deriving DecidableEq, Repr

/-- The `file` object of a response; `references` is optional to model
its absence or nullity. -/
structure FileRecord where
  id : String
  name : String
  size : Nat
  mime_type : String
  url : String
  downloadUrl : String
  thumbnailUrl : String
  references : Option RefSet
  expires_at : Option String
deriving DecidableEq, Repr

/-- An upload response; `file` is optional to model its absence. -/
structure ImgfansResponse where
  success : Bool
  file : Option FileRecord
deriving DecidableEq, Repr

/-- Read `response?.file?.references`: the optional-chaining read that
`validateResponse` tests.  The accessors receive `Option ImgfansResponse`
so that an absent or null response value is representable. -/
def responseRefs (r : Option ImgfansResponse) : Option RefSet :=
  (r.bind ImgfansResponse.file).bind FileRecord.references

/-- The `InvalidResponseShape` message thrown by `validateResponse`. -/
def invalidResponseMsg : String := "Invalid response format from server"

/-- Model of `validateResponse`: throws the unified error when
`response?.file?.references` is absent. -/
def validateResponse (r : Option ImgfansResponse) : Except Thrown Unit :=
  match responseRefs r with
  | some _ => .ok ()
  | none => .error (.imgfansError invalidResponseMsg none none none)

/-- The native `TypeError` raised by reading `.code` on `undefined`. -/
def typeErrorReadCode : Thrown :=
  .typeError "cannot read property code of undefined"

/-- Reading `.code` on a reference entry that may be absent: in
JavaScript, property access on `undefined` throws a native `TypeError`,
not an `ImgfansError`. -/
def readCode : Option RefEntry → Except Thrown String
  | some e => .ok e.code
  | none => .error typeErrorReadCode

/-- Model of `getDirectLink`: validate, then read
`response.file.references.direct_link.code`. -/
def getDirectLink (r : Option ImgfansResponse) : Except Thrown String :=
  match responseRefs r with
  | some refs => readCode refs.direct_link
  | none => .error (.imgfansError invalidResponseMsg none none none)

/-- Model of `getMarkdownCode`: validate, then read
`response.file.references.markdown.code`. -/
def getMarkdownCode (r : Option ImgfansResponse) : Except Thrown String :=
  match responseRefs r with
  | some refs => readCode refs.markdown
  | none => .error (.imgfansError invalidResponseMsg none none none)

/-- Model of `getHtmlCode`: validate, then read
`response.file.references.html.code`. -/
def getHtmlCode (r : Option ImgfansResponse) : Except Thrown String :=
  match responseRefs r with
  | some refs => readCode refs.html
  | none => .error (.imgfansError invalidResponseMsg none none none)

/-- The object literal returned by `getAllReferences`: exactly the five
renamed keys. -/
structure AllRefs where
  directLink : String
  downloadLink : String
  bbcode : String
  html : String
  markdown : String
deriving DecidableEq, Repr

/-- Model of `getAllReferences`: validate, then read the five `code` fields in the
order of the object literal (`direct_link`, `download_link`, `bbcode`,
`html`, `markdown`), renaming the keys. -/
def getAllReferences (r : Option ImgfansResponse) : Except Thrown AllRefs :=
  match responseRefs r with
  | none => .error (.imgfansError invalidResponseMsg none none none)
  | some refs =>
    match readCode refs.direct_link with
    | .error e => .error e
    | .ok dl =>
      match readCode refs.download_link with
      | .error e => .error e
      | .ok dn =>
        match readCode refs.bbcode with
        | .error e => .error e
        | .ok bb =>
          match readCode refs.html with
          | .error e => .error e
          | .ok ht =>
            match readCode refs.markdown with
            | .error e => .error e
            | .ok md => .ok ⟨dl, dn, bb, ht, md⟩

/-! ## Client construction -/

/-- The constructor argument; `token` is optional to model a config
object with the token missing. -/
structure ImgfansConfig where
  token : Option String
  baseURL : Option String
deriving DecidableEq, Repr

/-- JavaScript truthiness of `config.token`. -/
def jsTruthyStr : Option String → Bool
  | none => false
  | some s => s != ""

/-- The default endpoint `DEFAULT_BASE_URL`. -/
def DEFAULT_BASE_URL : String := "https://imgfans.com/api/v1"

/-- The configured axios instance: resolved base URL and the headers the
constructor installs.  No request is represented — construction performs
no network call. -/
structure ClientState where
  baseURL : String
  authHeader : String
  acceptHeader : String
deriving DecidableEq, Repr

/-- The `ImgfansClient` constructor: throw when `config.token` is falsy,
otherwise build the axios instance with the resolved base URL and bearer
header. -/
def ImgfansClient.init (config : ImgfansConfig) : Except Thrown ClientState :=
  if jsTruthyStr config.token then
    .ok { baseURL := jsOrStr config.baseURL DEFAULT_BASE_URL,
          authHeader := "Bearer " ++ config.token.getD "",
          acceptHeader := "application/json" }
  else
    .error (.imgfansError "API token is required for initialization" none none none)

/-! ## Concrete environments and responses used by witnesses -/

/-- An environment in which no local file exists and every fetch fails. -/
def envNoFs : PreEnv :=
  ⟨fun _ => false, fun _ => .error ⟨none, none, "network unreachable"⟩⟩

/-- An environment in which every path names an existing file. -/
def envAllFs : PreEnv :=
  ⟨fun _ => true, fun _ => .error ⟨none, none, "network unreachable"⟩⟩

/-- An environment in which every fetch yields the bytes `[1, 2, 3]`. -/
def envFetch123 : PreEnv :=
  ⟨fun _ => false, fun _ => .ok [1, 2, 3]⟩

/-! ## Helper lemmas -/

/-- Unfolding lemma: `isPrefixOf` on two cons cells compares heads then recurses. -/
theorem cons_isPrefixOf_cons (a b : Char) (l1 l2 : List Char) :
    List.isPrefixOf (a :: l1) (b :: l2) = (a == b && List.isPrefixOf l1 l2) := rfl

/-- A string beginning with `data:image/` begins with neither `http://`
nor `https://`. -/
theorem not_url_of_dataImage (s : String) (h : jsStartsWith s "data:image/" = true) :
    (jsStartsWith s "http://" || jsStartsWith s "https://") = false := by
  unfold jsStartsWith at h ⊢
  cases hs : s.data with
  | nil => rw [hs] at h; exact absurd h (by decide)
  | cons c cs =>
    rw [hs] at h
    have h2 : (('d' == c) && List.isPrefixOf "ata:image/".data cs) = true := h
    have hc : c = 'd' := by
      have := (Bool.and_eq_true _ _).mp h2 |>.1
      exact (beq_iff_eq.mp this).symm
    subst hc
    show ((('h' == 'd') && List.isPrefixOf "ttp://".data cs) ||
          (('h' == 'd') && List.isPrefixOf "ttps://".data cs)) = false
    simp [show ('h' == 'd') = false from rfl]

/-- Rewrapping the `InvalidInput` error through `ImgfansError.fromError`
keeps its message and records the original error as the cause. -/
theorem fromError_invalidInput :
    ImgfansError.fromError (.imgfansError invalidInputMsg none none none) =
      .imgfansError invalidInputMsg none none
        (some (.imgfansError invalidInputMsg none none none)) := rfl

/-- C1: the string classification of `preprocessInput` follows the fixed
priority order with first match winning: an `http(s)://` string is
resolved by the fetch oracle alone (never through the filesystem or the
base64 decoder, whatever its content); otherwise a string taken by the
`data:image/` base64 branch is decoded; otherwise an existing path is
opened as a stream; otherwise the `InvalidInput` error is raised. -/
theorem preprocess_priority (env : PreEnv) (s : String) (hint : Option String) :
    ((jsStartsWith s "http://" || jsStartsWith s "https://") = true →
      preprocessInput env (.str s) hint =
        match env.fetch s with
        | .ok bytes => .ok (.buffer bytes, hint.getD (basename (urlPathname s)))
        | .error e => .error (ImgfansError.fromError (.axiosError e))) ∧
    ((jsStartsWith s "http://" || jsStartsWith s "https://") = false →
      jsStartsWith s "data:image/" = true →
      ∀ mime payload, dataUriMatch s = some (mime, payload) →
      preprocessInput env (.str s) hint =
        .ok (.buffer (b64decode payload), hint.getD "image.png")) ∧
    ((jsStartsWith s "http://" || jsStartsWith s "https://") = false →
      (jsStartsWith s "data:image/" = false ∨ dataUriMatch s = none) →
      env.fsExists s = true →
      preprocessInput env (.str s) hint = .ok (.stream s, hint.getD (basename s))) ∧
    ((jsStartsWith s "http://" || jsStartsWith s "https://") = false →
      (jsStartsWith s "data:image/" = false ∨ dataUriMatch s = none) →
      env.fsExists s = false →
      preprocessInput env (.str s) hint =
        .error (.imgfansError invalidInputMsg none none
          (some (.imgfansError invalidInputMsg none none none)))) := by
  refine ⟨fun hu => ?_, fun hu hd mime payload hm => ?_,
    fun hu hd hf => ?_, fun hu hd hf => ?_⟩
  · cases hfetch : env.fetch s <;>
      simp [preprocessInput, preprocessCore, hu, hfetch]
  · simp [preprocessInput, preprocessCore, hu, hd, hm]
  · rcases hd with hd | hd
    · simp [preprocessInput, preprocessCore, preprocessPathFallback, hu, hd, hf]
    · cases hdi : jsStartsWith s "data:image/" <;>
        simp [preprocessInput, preprocessCore, preprocessPathFallback, hu, hd, hdi, hf]
  · rcases hd with hd | hd
    · simp [preprocessInput, preprocessCore, preprocessPathFallback, hu, hd, hf,
        fromError_invalidInput]
    · cases hdi : jsStartsWith s "data:image/" <;>
        simp [preprocessInput, preprocessCore, preprocessPathFallback, hu, hd, hdi, hf,
          fromError_invalidInput]

/-- Witness for C1: a URL string resolves through the fetch oracle, with
the filename taken from the URL path. -/
theorem preprocess_priority_witness :
    preprocessInput envFetch123 (.str "http://host/pics/a.png") none =
      .ok (.buffer [1, 2, 3], "a.png") := by
  have h := (preprocess_priority envFetch123 "http://host/pics/a.png" none).1 (by decide)
  rw [h]; rfl

/-- C2 counterexample: `"data:text/plain;base64,QUJD"` matches the
data-URI pattern `data:<mime>;base64,<payload>`, yet `preprocessInput`
does not decode it — the branch is guarded by the `data:image/` prefix,
so the string falls through to the path check and (no such file
existing) is rejected with `InvalidInput`. -/
theorem dataUri_nonImage_rejected :
    (dataUriMatch "data:text/plain;base64,QUJD").isSome = true ∧
    preprocessInput envNoFs (.str "data:text/plain;base64,QUJD") none =
      .error (.imgfansError invalidInputMsg none none
        (some (.imgfansError invalidInputMsg none none none))) := by
  exact ⟨rfl, rfl⟩

/-- C2 (amended): for every string that starts with `data:image/` and
matches the pattern `data:<mime>;base64,<payload>`, `preprocessInput`
decodes the base64 payload to bytes, and the resulting filename is the
hint if given, else exactly `"image.png"`. -/
theorem dataUri_image_decoded (env : PreEnv) (s : String) (hint : Option String)
    (mime payload : String)
    (hd : jsStartsWith s "data:image/" = true)
    (hm : dataUriMatch s = some (mime, payload)) :
    preprocessInput env (.str s) hint =
      .ok (.buffer (b64decode payload), hint.getD "image.png") := by
  have hu := not_url_of_dataImage s hd
  simp [preprocessInput, preprocessCore, hu, hd, hm]

/-- Witness for C2 (amended): a PNG data URI decodes to the bytes
`A B C` with filename `"image.png"`; with a hint the hint is used. -/
theorem dataUri_image_decoded_witness :
    preprocessInput envNoFs (.str "data:image/png;base64,QUJD") none =
      .ok (.buffer [65, 66, 67], "image.png") ∧
    preprocessInput envNoFs (.str "data:image/png;base64,QUJD") (some "pic.png") =
      .ok (.buffer [65, 66, 67], "pic.png") := by
  constructor
  · have h := dataUri_image_decoded envNoFs "data:image/png;base64,QUJD" none
      "image/png" "QUJD" (by decide) (by decide)
    rw [h]; rfl
  · have h := dataUri_image_decoded envNoFs "data:image/png;base64,QUJD" (some "pic.png")
      "image/png" "QUJD" (by decide) (by decide)
    rw [h]; rfl

/-- C10: a string that starts with `data:image/` but does not match the
full data-URI pattern is not a decode failure: it falls through to the
filesystem existence check, streaming the file when it exists and
failing with the `InvalidInput` error when it does not. -/
theorem dataUri_malformed_fallthrough (env : PreEnv) (s : String) (hint : Option String)
    (hd : jsStartsWith s "data:image/" = true)
    (hm : dataUriMatch s = none) :
    (env.fsExists s = true →
       preprocessInput env (.str s) hint = .ok (.stream s, hint.getD (basename s))) ∧
    (env.fsExists s = false →
       preprocessInput env (.str s) hint =
         .error (.imgfansError invalidInputMsg none none
           (some (.imgfansError invalidInputMsg none none none)))) := by
  have hu := not_url_of_dataImage s hd
  constructor <;> intro hf <;>
    simp [preprocessInput, preprocessCore, preprocessPathFallback, hu, hd, hm, hf,
      fromError_invalidInput]

/-- Witness for C10: `"data:image/pngnope"` (no `;base64,` part) is
rejected with `InvalidInput` when no such file exists, and streamed when
the path exists. -/
theorem dataUri_malformed_fallthrough_witness :
    preprocessInput envNoFs (.str "data:image/pngnope") none =
      .error (.imgfansError invalidInputMsg none none
        (some (.imgfansError invalidInputMsg none none none))) ∧
    preprocessInput envAllFs (.str "data:image/pngnope") none =
      .ok (.stream "data:image/pngnope", "pngnope") := by
  constructor
  · exact (dataUri_malformed_fallthrough envNoFs "data:image/pngnope" none
      (by decide) (by decide)).2 rfl
  · have h := (dataUri_malformed_fallthrough envAllFs "data:image/pngnope" none
      (by decide) (by decide)).1 rfl
    rw [h]; rfl

/-- In every successful branch of the classification chain the returned
filename is `customFilename.getD d` for the branch default `d`, so a
supplied override is always returned verbatim. -/
theorem preprocessCore_override (env : PreEnv) (input : UploadInput) (f : String)
    (pf : ProcessedFile) (name : String)
    (h : preprocessCore env input (some f) = .ok (pf, name)) : name = f := by
  cases input <;> unfold preprocessCore preprocessPathFallback at h <;>
    (repeat' split at h) <;> simp_all

/-- C7: absent an override, a streamed local file is named by the path
base name, a fetched URL by the base name of the URL path component, and
a raw buffer exactly `"image.png"`; a supplied override is used verbatim
in every branch. -/
theorem detected_filename (env : PreEnv) :
    (∀ s bytes, (jsStartsWith s "http://" || jsStartsWith s "https://") = true →
       env.fetch s = .ok bytes →
       preprocessInput env (.str s) none =
         .ok (.buffer bytes, basename (urlPathname s))) ∧
    (∀ s, (jsStartsWith s "http://" || jsStartsWith s "https://") = false →
       (jsStartsWith s "data:image/" = false ∨ dataUriMatch s = none) →
       env.fsExists s = true →
       preprocessInput env (.str s) none = .ok (.stream s, basename s)) ∧
    (∀ bs, preprocessInput env (.buffer bs) none = .ok (.buffer bs, "image.png")) ∧
    (∀ input f pf name,
       preprocessInput env input (some f) = .ok (pf, name) → name = f) := by
  refine ⟨fun s bytes hu hfetch => ?_, fun s hu hd hf => ?_, fun bs => rfl,
    fun input f pf name h => ?_⟩
  · simp [preprocessInput, preprocessCore, hu, hfetch]
  · rcases hd with hd | hd
    · simp [preprocessInput, preprocessCore, preprocessPathFallback, hu, hd, hf]
    · cases hdi : jsStartsWith s "data:image/" <;>
        simp [preprocessInput, preprocessCore, preprocessPathFallback, hu, hd, hdi, hf]
  · unfold preprocessInput at h
    cases hc : preprocessCore env input (some f) with
    | error e => rw [hc] at h; exact absurd h (by simp)
    | ok v =>
      rw [hc] at h
      cases v with
      | mk a b =>
        simp at h
        exact h.2 ▸ preprocessCore_override env input f a b hc

/-- Witness for C7: URL, local-file, buffer and override cases at
concrete inputs. -/
theorem detected_filename_witness :
    preprocessInput envFetch123 (.str "https://host/img/photo.jpg") none =
      .ok (.buffer [1, 2, 3], "photo.jpg") ∧
    preprocessInput envAllFs (.str "/tmp/dir/cat.gif") none =
      .ok (.stream "/tmp/dir/cat.gif", "cat.gif") ∧
    preprocessInput envNoFs (.buffer [9, 9]) none = .ok (.buffer [9, 9], "image.png") ∧
    ("pic.png" : String) = "pic.png" := by
  refine ⟨?_, ?_, (detected_filename envNoFs).2.2.1 [9, 9], ?_⟩
  · have h := (detected_filename envFetch123).1 "https://host/img/photo.jpg" [1, 2, 3]
      (by decide) rfl
    rw [h]; rfl
  · have h := (detected_filename envAllFs).2.1 "/tmp/dir/cat.gif" (by decide)
      (Or.inl (by decide)) rfl
    rw [h]; rfl
  · exact (detected_filename envAllFs).2.2.2 (.str "x") "pic.png" (.stream "x") "pic.png"
      (by rfl)

/-- A fully populated reference set. -/
def refsFull : RefSet :=
  ⟨some ⟨"Direct Link", "cDL"⟩, some ⟨"Download Link", "cDN"⟩,
   some ⟨"BBCode", "cBB"⟩, some ⟨"HTML", "cHT"⟩, some ⟨"Markdown", "cMD"⟩⟩

/-- A file record carrying `refsFull`. -/
def fileFull : FileRecord :=
  ⟨"id1", "n.png", 3, "image/png", "u", "d", "t", some refsFull, none⟩

/-- A well-formed response. -/
def respFull : Option ImgfansResponse := some ⟨true, some fileFull⟩

/-- Variant of `refsFull` with the `direct_link` kind missing. -/
def refsNoDirect : RefSet := { refsFull with direct_link := none }

/-- A response whose references lack `direct_link`. -/
def respNoDirect : Option ImgfansResponse :=
  some ⟨true, some { fileFull with references := some refsNoDirect }⟩

/-- A response whose `file.references` is absent. -/
def respNoRefs : Option ImgfansResponse :=
  some ⟨true, some { fileFull with references := none }⟩

/-- C3 counterexample: on a response whose references lack
`direct_link`, `getDirectLink` fails — but with a native `TypeError`,
not the library's unified `ImgfansError`. -/
theorem accessor_missing_kind_not_unified :
    getDirectLink respNoDirect = .error typeErrorReadCode ∧
    Thrown.isImgfansError typeErrorReadCode = false := by
  exact ⟨rfl, rfl⟩

/-- C3 (amended): when `file.references` is present but one of the five
kinds is absent, every accessor that reads the absent kind fails — with
a native `TypeError` from the property access on `undefined`, not with
the unified `ImgfansError`. -/
theorem accessor_missing_kind (r : Option ImgfansResponse) (refs : RefSet)
    (h : responseRefs r = some refs) :
    (refs.direct_link = none → getDirectLink r = .error typeErrorReadCode) ∧
    (refs.markdown = none → getMarkdownCode r = .error typeErrorReadCode) ∧
    (refs.html = none → getHtmlCode r = .error typeErrorReadCode) ∧
    ((refs.direct_link = none ∨ refs.download_link = none ∨ refs.bbcode = none ∨
        refs.html = none ∨ refs.markdown = none) →
      getAllReferences r = .error typeErrorReadCode) := by
  refine ⟨fun hd => ?_, fun hd => ?_, fun hd => ?_, fun hd => ?_⟩
  · simp [getDirectLink, h, hd, readCode]
  · simp [getMarkdownCode, h, hd, readCode]
  · simp [getHtmlCode, h, hd, readCode]
  · rcases hd with hd | hd | hd | hd | hd
    · simp [getAllReferences, h, hd, readCode]
    · cases h1 : refs.direct_link <;>
        simp [getAllReferences, h, hd, h1, readCode]
    · cases h1 : refs.direct_link <;> cases h2 : refs.download_link <;>
        simp [getAllReferences, h, hd, h1, h2, readCode]
    · cases h1 : refs.direct_link <;> cases h2 : refs.download_link <;>
        cases h3 : refs.bbcode <;>
        simp [getAllReferences, h, hd, h1, h2, h3, readCode]
    · cases h1 : refs.direct_link <;> cases h2 : refs.download_link <;>
        cases h3 : refs.bbcode <;> cases h4 : refs.html <;>
        simp [getAllReferences, h, hd, h1, h2, h3, h4, readCode]

/-- Witness for C3 (amended): the three single-kind accessors and
`getAllReferences` on a response lacking `direct_link`. -/
theorem accessor_missing_kind_witness :
    getAllReferences respNoDirect = .error typeErrorReadCode := by
  exact (accessor_missing_kind respNoDirect refsNoDirect rfl).2.2.2 (Or.inl rfl)

/-- C4: on a well-formed response, `getAllReferences` returns exactly the
five renamed keys, each equal to the `code` field of the corresponding
wire-format entry. -/
theorem getAllReferences_wellFormed (r : Option ImgfansResponse) (refs : RefSet)
    (dl dn bb ht md : RefEntry)
    (h : responseRefs r = some refs)
    (h1 : refs.direct_link = some dl) (h2 : refs.download_link = some dn)
    (h3 : refs.bbcode = some bb) (h4 : refs.html = some ht)
    (h5 : refs.markdown = some md) :
    getAllReferences r = .ok ⟨dl.code, dn.code, bb.code, ht.code, md.code⟩ := by
  simp [getAllReferences, h, h1, h2, h3, h4, h5, readCode]

/-- Witness for C4 at a concrete well-formed response. -/
theorem getAllReferences_wellFormed_witness :
    getAllReferences respFull = .ok ⟨"cDL", "cDN", "cBB", "cHT", "cMD"⟩ := by
  have h := getAllReferences_wellFormed respFull refsFull
    ⟨"Direct Link", "cDL"⟩ ⟨"Download Link", "cDN"⟩ ⟨"BBCode", "cBB"⟩
    ⟨"HTML", "cHT"⟩ ⟨"Markdown", "cMD"⟩ rfl rfl rfl rfl rfl rfl
  rw [h]

/-- C5: on any response value missing `file.references` (the response
itself, its `file` field, or its `references` field absent or null),
every accessor fails with exactly the `InvalidResponseShape` error. -/
theorem accessors_invalid_shape (r : Option ImgfansResponse)
    (h : responseRefs r = none) :
    getDirectLink r = .error (.imgfansError invalidResponseMsg none none none) ∧
    getMarkdownCode r = .error (.imgfansError invalidResponseMsg none none none) ∧
    getHtmlCode r = .error (.imgfansError invalidResponseMsg none none none) ∧
    getAllReferences r = .error (.imgfansError invalidResponseMsg none none none) := by
  refine ⟨?_, ?_, ?_, ?_⟩ <;>
    simp [getDirectLink, getMarkdownCode, getHtmlCode, getAllReferences, h]

/-- Witness for C5 on the absent response, the response without `file`,
and the response without `references`. -/
theorem accessors_invalid_shape_witness :
    getDirectLink none = .error (.imgfansError invalidResponseMsg none none none) ∧
    getAllReferences (some ⟨true, none⟩) =
      .error (.imgfansError invalidResponseMsg none none none) ∧
    getMarkdownCode respNoRefs =
      .error (.imgfansError invalidResponseMsg none none none) := by
  exact ⟨(accessors_invalid_shape none rfl).1,
         (accessors_invalid_shape (some ⟨true, none⟩) rfl).2.2.2,
         (accessors_invalid_shape respNoRefs rfl).2.1⟩

/-- C6: the status-to-message translation is a deterministic function of
the failure — 413, 415 and 401 map to their fixed messages, a
connection-refused code (when no mapped status applies) to the
connectivity message, and every other failure falls back to the
server-provided message or the generic failure string; and the wrapped
`ImgfansError` carries the original status code, the raw server payload
and the underlying cause. -/
theorem error_translation :
    (∀ e : AxiosError, respStatus e = some 413 →
       getReadableErrorMessage e =
         "The image file is too large. Please try a smaller file.") ∧
    (∀ e : AxiosError, respStatus e = some 415 →
       getReadableErrorMessage e =
         "The file type is not supported. Please upload a valid image file.") ∧
    (∀ e : AxiosError, respStatus e = some 401 →
       getReadableErrorMessage e =
         "Invalid or missing API token. Please check your credentials.") ∧
    (∀ e : AxiosError, respStatus e ≠ some 413 → respStatus e ≠ some 415 →
       respStatus e ≠ some 401 → e.code = some "ECONNREFUSED" →
       getReadableErrorMessage e =
         "Unable to connect to Imgfans server. Please check your internet connection.") ∧
    (∀ e : AxiosError, respStatus e ≠ some 413 → respStatus e ≠ some 415 →
       respStatus e ≠ some 401 → e.code ≠ some "ECONNREFUSED" →
       getReadableErrorMessage e =
         jsOrStr (e.response.bind fun r => r.data.message)
           (jsOrStr (some e.message) "Upload failed for unknown reason")) ∧
    (∀ e : AxiosError,
       ImgfansError.fromError (.axiosError e) =
         .imgfansError (getReadableErrorMessage e) (respStatus e)
           (e.response.map AxiosResp.data) (some (.axiosError e))) := by
  refine ⟨fun e h => ?_, fun e h => ?_, fun e h => ?_,
    fun e h1 h2 h3 hc => ?_, fun e h1 h2 h3 hc => ?_, fun e => rfl⟩
  · simp [getReadableErrorMessage, h]
  · simp [getReadableErrorMessage, h]
  · simp [getReadableErrorMessage, h]
  · rw [getReadableErrorMessage, if_neg h1, if_neg h2, if_neg h3, if_pos hc]
  · rw [getReadableErrorMessage, if_neg h1, if_neg h2, if_neg h3, if_neg hc]

/-- Witness for C6: a 413 failure with a raw payload maps to the
too-large message and carries status, payload and cause; a bare
connection-refused failure maps to the connectivity message; a plain 500
falls back to the server-provided message. -/
theorem error_translation_witness :
    ImgfansError.fromError
        (.axiosError ⟨some ⟨413, ⟨some "srv says", "rawbody"⟩⟩, none, "req failed"⟩) =
      .imgfansError "The image file is too large. Please try a smaller file."
        (some 413) (some ⟨some "srv says", "rawbody"⟩)
        (some (.axiosError
          ⟨some ⟨413, ⟨some "srv says", "rawbody"⟩⟩, none, "req failed"⟩)) ∧
    getReadableErrorMessage ⟨none, some "ECONNREFUSED", "req failed"⟩ =
      "Unable to connect to Imgfans server. Please check your internet connection." ∧
    getReadableErrorMessage ⟨some ⟨500, ⟨some "srv says", "rawbody"⟩⟩, none, "req failed"⟩ =
      "srv says" := by
  refine ⟨?_, ?_, ?_⟩
  · have hfe := error_translation.2.2.2.2.2
      ⟨some ⟨413, ⟨some "srv says", "rawbody"⟩⟩, none, "req failed"⟩
    have h413 := error_translation.1
      ⟨some ⟨413, ⟨some "srv says", "rawbody"⟩⟩, none, "req failed"⟩ rfl
    rw [hfe, h413]
    rfl
  · exact error_translation.2.2.2.1 ⟨none, some "ECONNREFUSED", "req failed"⟩
      (by decide) (by decide) (by decide) rfl
  · have h := error_translation.2.2.2.2.1
      ⟨some ⟨500, ⟨some "srv says", "rawbody"⟩⟩, none, "req failed"⟩
      (by decide) (by decide) (by decide) (by decide)
    rw [h]; rfl

/-- C8: construction fails with the `ConfigurationError` precisely when
the token is missing or empty, before anything else happens, and
succeeds for every non-empty token, resolving the base URL default and
installing the bearer header.  The model of the constructor performs no
network effect: its result is a pure function of the configuration. -/
theorem construction_token_check (config : ImgfansConfig) :
    (jsTruthyStr config.token = false →
       ImgfansClient.init config =
         .error (.imgfansError "API token is required for initialization"
           none none none)) ∧
    (∀ t, config.token = some t → t ≠ "" →
       ImgfansClient.init config =
         .ok ⟨jsOrStr config.baseURL DEFAULT_BASE_URL, "Bearer " ++ t,
              "application/json"⟩) := by
  constructor
  · intro h
    simp [ImgfansClient.init, h]
  · intro t ht hne
    simp [ImgfansClient.init, jsTruthyStr, ht, hne]

/-- Witness for C8: a missing token and an empty token both fail, a
non-empty token succeeds with the default base URL. -/
theorem construction_token_check_witness :
    ImgfansClient.init ⟨none, none⟩ =
      .error (.imgfansError "API token is required for initialization"
        none none none) ∧
    ImgfansClient.init ⟨some "", some "https://example.org"⟩ =
      .error (.imgfansError "API token is required for initialization"
        none none none) ∧
    ImgfansClient.init ⟨some "tok", none⟩ =
      .ok ⟨DEFAULT_BASE_URL, "Bearer tok", "application/json"⟩ := by
  refine ⟨(construction_token_check ⟨none, none⟩).1 rfl,
    (construction_token_check ⟨some "", some "https://example.org"⟩).1 rfl, ?_⟩
  have h := (construction_token_check ⟨some "tok", none⟩).2 "tok" rfl (by decide)
  rw [h]
  rfl

/-- Decoding an alphabet character recovers its sextet. -/
theorem b64IndexOfChar_chr : ∀ i, i < 64 → b64IndexOfChar (b64Chr i) = some i := by
  decide

/-- The padding character is skipped by the decoder. -/
theorem b64IndexOfChar_pad : b64IndexOfChar '=' = none := rfl

/-- Node's base64 decoder inverts the encoder on byte lists. -/
theorem b64decode_b64encode : ∀ bs : List Nat, (∀ b ∈ bs, b < 256) →
    b64decode (b64encode bs) = bs
  | [], _ => rfl
  | [b1], h => by
      have h1 : b1 < 256 := h b1 (by simp)
      simp only [b64encode, b64decode, bytesToB64, List.filterMap_cons,
        b64IndexOfChar_chr (b1 / 4) (by omega),
        b64IndexOfChar_chr ((b1 % 4) * 16) (by omega),
        b64IndexOfChar_pad, List.filterMap_nil, sextetsToBytes,
        List.cons.injEq, and_true]
      omega
  | [b1, b2], h => by
      have h1 : b1 < 256 := h b1 (by simp)
      have h2 : b2 < 256 := h b2 (by simp)
      simp only [b64encode, b64decode, bytesToB64, List.filterMap_cons,
        b64IndexOfChar_chr (b1 / 4) (by omega),
        b64IndexOfChar_chr ((b1 % 4) * 16 + b2 / 16) (by omega),
        b64IndexOfChar_chr ((b2 % 16) * 4) (by omega),
        b64IndexOfChar_pad, List.filterMap_nil, sextetsToBytes,
        List.cons.injEq, and_true]
      constructor <;> omega
  | b1 :: b2 :: b3 :: rest, h => by
      have h1 : b1 < 256 := h b1 (by simp)
      have h2 : b2 < 256 := h b2 (by simp)
      have h3 : b3 < 256 := h b3 (by simp)
      have ih := b64decode_b64encode rest (fun b hb => h b (by simp [hb]))
      simp only [b64decode, b64encode] at ih
      simp only [b64encode, b64decode, bytesToB64, List.filterMap_cons,
        b64IndexOfChar_chr (b1 / 4) (by omega),
        b64IndexOfChar_chr ((b1 % 4) * 16 + b2 / 16) (by omega),
        b64IndexOfChar_chr ((b2 % 16) * 4 + b3 / 64) (by omega),
        b64IndexOfChar_chr (b3 % 64) (by omega),
        sextetsToBytes, List.cons.injEq]
      exact ⟨by omega, by omega, by omega, ih⟩

/-- C9 counterexample: `"data:image/png;base64,QQ"` matches the data-URI
pattern with payload `"QQ"`, whose decoded bytes re-encode to `"QQ=="`,
not to the original payload. -/
theorem b64_payload_roundtrip_fails :
    dataUriMatch "data:image/png;base64,QQ" = some ("image/png", "QQ") ∧
    b64decode "QQ" = [65] ∧
    b64encode (b64decode "QQ") = "QQ==" ∧
    (b64encode (b64decode "QQ") == "QQ") = false := by
  exact ⟨rfl, rfl, rfl, rfl⟩

/-- C9 (amended): for every data URI matching
`data:<mime>;base64,<payload>` whose payload is canonical base64 — that
is, the payload is itself the encoding of some byte sequence — decoding
the payload and re-encoding the bytes reproduces the payload character
for character. -/
theorem b64_payload_roundtrip (s mime payload : String) (bs : List Nat)
    (hm : dataUriMatch s = some (mime, payload))
    (hcanon : payload = b64encode bs)
    (hbytes : ∀ b ∈ bs, b < 256) :
    b64encode (b64decode payload) = payload := by
  subst hcanon
  rw [b64decode_b64encode bs hbytes]

/-- Witness for C9 (amended) on the `A B C` payload `"QUJD"`. -/
theorem b64_payload_roundtrip_witness :
    b64encode (b64decode "QUJD") = "QUJD" := by
  exact b64_payload_roundtrip "data:image/png;base64,QUJD" "image/png" "QUJD"
    [65, 66, 67] (by decide) (by decide) (by decide)
